import Mathlib

/-!
Shallow embedding of `src/tftp.py`, a TFTP client (RFC 1350 base protocol with
RFC 2347/2348/2349 option negotiation).

Modelling conventions:
* raw datagram bytes are `List Nat` (each value < 256 where it matters);
* ASCII text obtained by decoding bytes is again a `List Nat` of character codes,
  since ASCII decoding is the identity on byte values below 128;
* Python exceptions are modelled with `Except Failure`;
* Python dicts keyed by strings appear in two roles: parsed packets become the
  structure `RxPkt` whose fields are `Option`s (a `none` field is an absent key,
  so reading it raises `KeyError` exactly as in Python), and option mappings
  become association lists built in insertion order.
-/

namespace Tftp

/-- ASCII codes of a string literal, for readable byte-list constants. -/
def ascii (s : String) : List Nat := s.toList.map Char.toNat

/-- `struct.pack('! H', n)`: big-endian 16-bit encoding of `n` (callers keep `n < 65536`). -/
def u16enc (n : Nat) : List Nat := [n / 256 % 256, n % 256]

/-- `struct.unpack_from('! H', src, off)`: two bytes big-endian; `none` models `struct.error`
on a buffer too short. -/
def u16at (src : List Nat) (off : Nat) : Option Nat :=
  match src.get? off, src.get? (off + 1) with
  | some a, some b => some (a * 256 + b)
  | _, _ => none

/-- The ASCII whitespace characters stripped by Python's `str.strip()`. -/
def pyWhitespace (c : Nat) : Bool :=
  c = 32 || c = 9 || c = 10 || c = 13 || c = 11 || c = 12

/-- Python `str.strip()` on ASCII text. -/
def pyStrip (l : List Nat) : List Nat :=
  ((l.dropWhile pyWhitespace).reverse.dropWhile pyWhitespace).reverse

/-- Python `str.lower()` on an ASCII character code. -/
def asciiLower (c : Nat) : Nat := if 65 ≤ c ∧ c ≤ 90 then c + 32 else c

/-- Python `str.rstrip('\0')`: drop all trailing NUL codes. -/
def rstripNul (l : List Nat) : List Nat :=
  (l.reverse.dropWhile (· = 0)).reverse

def isDigit (c : Nat) : Bool := 48 ≤ c && c ≤ 57

/-- Digit-group validity for Python `int(str)`: nonempty digits, with single
underscores allowed only between digits. -/
def digitsOk : List Nat → Bool
  | [] => false
  | [c] => isDigit c
  | c :: c2 :: rest =>
    if isDigit c then digitsOk (c2 :: rest)
    else if c = 95 then isDigit c2 && digitsOk (c2 :: rest)
    else false

/-- A valid unsigned numeral for Python `int(str)`: starts with a digit, `digitsOk` overall. -/
def validNum (l : List Nat) : Bool :=
  match l with
  | [] => false
  | c :: _ => isDigit c && digitsOk l

/-- Decimal value of a digit list (underscores already filtered out). -/
def digitsVal (l : List Nat) : Nat :=
  l.foldl (fun a c => a * 10 + (c - 48)) 0

/-- Python `int(str)` on ASCII text: optional surrounding whitespace, optional sign,
decimal digits with underscore grouping; `none` models `ValueError`. -/
def pyInt (l : List Nat) : Option Int :=
  let s := pyStrip l
  let signAndDigits : Int × List Nat :=
    match s with
    | 43 :: rest => (1, rest)
    | 45 :: rest => (-1, rest)
    | _ => (1, s)
  if validNum signAndDigits.2 then
    some (signAndDigits.1 * (digitsVal (signAndDigits.2.filter (· ≠ 95)) : Int))
  else none

/-- The elements at even positions (`words[0::2]` in Python). -/
def evenIdx : List α → List α
  | [] => []
  | [a] => [a]
  | a :: _ :: rest => a :: evenIdx rest

/-- The elements at odd positions (`words[1::2]` in Python). -/
def oddIdx : List α → List α
  | [] => []
  | [_] => []
  | _ :: b :: rest => b :: oddIdx rest

/-- Lookup in a Python dict modelled as an insertion-ordered association list:
the last binding of a key wins, as in a dict comprehension. -/
def dictGet (d : List (List Nat × List Nat)) (k : List Nat) : Option (List Nat) :=
  ((d.filter (fun p => p.1 = k)).getLast?).map (·.2)

-- opcodes (class Opcode)
def opRRQ : Nat := 1
def opWRQ : Nat := 2
def opDATA : Nat := 3
def opACK : Nat := 4
def opERR : Nat := 5
def opOACK : Nat := 6

/-- Failures: one constructor per Python exception class reachable from the client,
with the payloads the exceptions carry.  All of `serverError`, `protocolViolation`,
`timeoutError` and `unacceptableOptions` are `TFTPClientError` instances in the source,
distinguished only by message. -/
inductive Failure where
  | custom (msg : List Nat)
  | fileNotFound (msg : List Nat)
  | accessViolation (msg : List Nat)
  | diskFull (msg : List Nat)
  | illegalOperation (msg : List Nat)
  | serverError (code : Nat) (msg : List Nat)
  | protocolViolation (op : Nat)
  | timeoutError
  | unacceptableOptions
  | keyError (key : String)
deriving DecidableEq, Repr

/-- The Python exception class a `Failure` is raised as. -/
def Failure.pyClass : Failure → String
  | .custom _ => "TFTPClientCustomError"
  | .fileNotFound _ => "TFTPClientFileNotFoundError"
  | .accessViolation _ => "TFTPClientAccessViolationError"
  | .diskFull _ => "TFTPClientDiskFullError"
  | .illegalOperation _ => "TFTPClientIllegalOperationError"
  | .serverError _ _ => "TFTPClientError"
  | .protocolViolation _ => "TFTPClientError"
  | .timeoutError => "TFTPClientError"
  | .unacceptableOptions => "TFTPClientError"
  | .keyError _ => "KeyError"

/-- A parsed packet: the dict returned by `parse_pkt`.  Every field other than
`op` is `Option`al; `none` means the key is absent from the dict. -/
structure RxPkt where
  op : Nat
  blocknum : Option Nat := none
  acknum : Option Nat := none
  data : Option (List Nat) := none
  errcode : Option Nat := none
  msg : Option (List Nat) := none
  options : Option (List (List Nat × List Nat)) := none
deriving DecidableEq, Repr

/-- Reading a dict key: `none` raises `KeyError` as in Python. -/
def getKey {α : Type} (k : String) : Option α → Except Failure α
  | some v => .ok v
  | none => .error (.keyError k)

/-- `cstr(s)`: ASCII-encode and NUL-terminate (text is already byte codes here). -/
def cstr (s : List Nat) : List Nat := s ++ [0]

def create_data_pkt (blocknum : Nat) (data : List Nat) : List Nat :=
  u16enc opDATA ++ u16enc blocknum ++ data

def create_ack_pkt (acknum : Nat) : List Nat :=
  u16enc opACK ++ u16enc acknum

/-- `create_rq_pkt`: opcode, NUL-terminated filename, mode `octet`, then the
option key/value pairs in insertion order, each NUL-terminated. -/
def create_rq_pkt (filename : List Nat) (op : Nat)
    (options : List (List Nat × List Nat)) : List Nat :=
  u16enc op ++ cstr filename ++ cstr (ascii "octet") ++
    (options.map (fun p => cstr p.1 ++ cstr p.2)).flatten

/-- `str(n)` for a natural number. -/
def decimal (n : Nat) : List Nat := ascii (toString n)

def create_wrq_pkt (filename : List Nat) (blocksize timeout : Nat) : List Nat :=
  create_rq_pkt filename opWRQ
    [(ascii "blksize", decimal blocksize), (ascii "timeout", decimal timeout)]

def create_rrq_pkt (filename : List Nat) (blocksize timeout : Nat) : List Nat :=
  create_rq_pkt filename opRRQ
    [(ascii "blksize", decimal blocksize), (ascii "timeout", decimal timeout)]

/-- `parse_options`: ASCII-decode (fails on any byte ≥ 128, modelling
`UnicodeDecodeError`), strip, split on NUL, zip even positions with odd positions
(`zip` silently drops an unpaired trailing token), lower-case the keys. -/
def parse_options (src : List Nat) : Option (List (List Nat × List Nat)) :=
  if src.all (· < 128) then
    let words := (pyStrip src).splitOn 0
    some ((List.zip (evenIdx words) (oddIdx words)).map
      (fun p => (p.1.map asciiLower, p.2)))
  else none

/-- `parse_pkt`: reads the 2-byte opcode and dispatches; any Python exception
(short buffer, bad encoding) is `none`, since every call site wraps it in `try`. -/
def parse_pkt (src : List Nat) : Option RxPkt :=
  match u16at src 0 with
  | none => none
  | some op =>
    if op = opDATA then
      match u16at src 2 with
      | none => none
      | some blocknum => some { op := opDATA, blocknum := some blocknum, data := some (src.drop 4) }
    else if op = opACK then
      match u16at src 2 with
      | none => none
      | some acknum => some { op := opACK, acknum := some acknum }
    else if op = opERR then
      match u16at src 2 with
      | none => none
      | some errcode =>
        if (src.drop 4).all (· < 128) then
          some { op := opERR, errcode := some errcode, msg := some (rstripNul (src.drop 4)) }
        else none
    else if op = opOACK then
      match parse_options (src.drop 2) with
      | none => none
      | some options => some { op := opOACK, options := some options }
    else
      some { op := op }

-- error codes (class Errcode)
def eCUSTOM : Nat := 0
def eFILE_NOT_FOUND : Nat := 1
def eACCESS_VIOLATION : Nat := 2
def eDISK_FULL : Nat := 3
def eILLEGAL_OPERATION : Nat := 4
def eUNKNOWN_TID : Nat := 5
def eFILE_ALREADY_EXISTS : Nat := 6
def eNO_SUCH_USER : Nat := 7
def eNO_OPTIONS_ERROR : Nat := 8

/-- `TFTPClient.process_err`: on an Error packet, raise the exception matching the
code (in the source's comparison order), else the generic server-error; a non-Error
packet passes through. -/
def process_err (rx : RxPkt) : Except Failure Unit :=
  if rx.op = opERR then
    match getKey "errcode" rx.errcode, getKey "msg" rx.msg with
    | .error e, _ => .error e
    | _, .error e => .error e
    | .ok errcode, .ok msg =>
      if errcode = eACCESS_VIOLATION then .error (.accessViolation msg)
      else if errcode = eCUSTOM then .error (.custom msg)
      else if errcode = eDISK_FULL then .error (.diskFull msg)
      else if errcode = eFILE_NOT_FOUND then .error (.fileNotFound msg)
      else if errcode = eILLEGAL_OPERATION then .error (.illegalOperation msg)
      else .error (.serverError errcode msg)
  else
    .ok ()

/-- `TFTPClient.handle_read_connect`: OACK or Data block 1 completes the connect,
other Data is ignored, anything else is unexpected. -/
def handle_read_connect (rx : RxPkt) : Except Failure (Option RxPkt) :=
  match process_err rx with
  | .error e => .error e
  | .ok _ =>
    if rx.op = opOACK then .ok (some rx)
    else if rx.op = opDATA then
      match getKey "blocknum" rx.blocknum with
      | .error e => .error e
      | .ok b => if b = 1 then .ok (some rx) else .ok none
    else .error (.protocolViolation rx.op)

/-- `TFTPClient.handle_write_connect`.  The source reads `rx['blocknum']` on an
Acknowledgement packet, although `parse_pkt` stores the acknowledged number under
the key `'acknum'` for ACK packets; the lookup is kept as written. -/
def handle_write_connect (rx : RxPkt) : Except Failure (Option RxPkt) :=
  match process_err rx with
  | .error e => .error e
  | .ok _ =>
    if rx.op = opOACK then .ok (some rx)
    else if rx.op = opACK then
      match getKey "blocknum" rx.blocknum with
      | .error e => .error e
      | .ok b => if b = 0 then .ok (some rx) else .ok none
    else .error (.protocolViolation rx.op)

/-- `TFTPClient.handle_data_rx` with the session's current `self.blocknum` passed
explicitly: a Data packet matches when its block number is the successor of the
session counter. -/
def handle_data_rx (blocknum : Nat) (rx : RxPkt) : Except Failure (Option RxPkt) :=
  match process_err rx with
  | .error e => .error e
  | .ok _ =>
    if rx.op = opDATA then
      match getKey "blocknum" rx.blocknum with
      | .error e => .error e
      | .ok b => if b = blocknum + 1 then .ok (some rx) else .ok none
    else .error (.protocolViolation rx.op)

/-- `TFTPClient.handle_data_tx` with the session's current `self.blocknum` passed
explicitly: an ACK matches when it acknowledges the current block. -/
def handle_data_tx (blocknum : Nat) (rx : RxPkt) : Except Failure (Option RxPkt) :=
  match process_err rx with
  | .error e => .error e
  | .ok _ =>
    if rx.op = opACK then
      match getKey "acknum" rx.acknum with
      | .error e => .error e
      | .ok a => if a = blocknum then .ok (some rx) else .ok none
    else .error (.protocolViolation rx.op)

/-- The mutable per-transfer fields set by `TFTPClient.setup`. -/
structure Session where
  blocknum : Nat
  blocksize : Nat
  timeout : Nat
deriving DecidableEq, Repr

/-- `TFTPClient.setup`: block 0, blocksize 512, per-retry timeout 1. -/
def setupSession : Session := { blocknum := 0, blocksize := 512, timeout := 1 }

/-- `TFTPClient.accept_options`: the whole body is wrapped in `try/except`, so any
exception inside (missing `'options'` key, `int()` failure, the out-of-range
blocksize raise) becomes the single `TFTPClientError('Unacceptable options')`.
An in-range blocksize or timeout is stored; an out-of-range parsed timeout is
silently skipped because that branch has no `else`. -/
def accept_options (session_timeout : Nat) (st : Session) (oack : RxPkt) :
    Except Failure Session :=
  match oack.options with
  | none => .error .unacceptableOptions
  | some options =>
    let afterBlksize : Except Failure Session :=
      match dictGet options (ascii "blksize") with
      | none => .ok st
      | some v =>
        match pyInt v with
        | none => .error .unacceptableOptions
        | some bs =>
          if 64 ≤ bs ∧ bs ≤ 1468 then .ok { st with blocksize := bs.toNat }
          else .error .unacceptableOptions
    match afterBlksize with
    | .error e => .error e
    | .ok st1 =>
      match dictGet options (ascii "timeout") with
      | none => .ok st1
      | some v =>
        match pyInt v with
        | none => .error .unacceptableOptions
        | some tout =>
          if 1 ≤ tout ∧ tout ≤ (session_timeout : Int) then
            .ok { st1 with timeout := tout.toNat }
          else .ok st1

/-- The connect phase of `TFTPClient.read`, given the first accepted reply from
`txrx`: on an OACK run `accept_options`; otherwise (a Data packet) set the block
counter to 1 and start the buffer with its payload. -/
def read_after_connect (session_timeout : Nat) (resp : RxPkt) :
    Except Failure (Session × List Nat) :=
  if resp.op = opOACK then
    match accept_options session_timeout setupSession resp with
    | .error e => .error e
    | .ok st1 => .ok (st1, [])
  else
    match getKey "data" resp.data with
    | .error e => .error e
    | .ok d => .ok ({ setupSession with blocknum := 1 }, d)

/-- The request actually transmitted by `TFTPClient.read` together with the session
resulting from the connect phase: the requested blocksize and timeout go into the
Read-Request packet only. -/
def read_connect_phase (def_blocksize def_timeout session_timeout : Nat)
    (filename : List Nat) (resp : RxPkt) :
    List Nat × Except Failure (Session × List Nat) :=
  (create_rrq_pkt filename def_blocksize def_timeout,
   read_after_connect session_timeout resp)

/-- One scripted window of the `txrx` loop: either `recvfrom` timed out, or a
datagram with the given bytes arrived from the given source during the window.
After an early arrival the source sleeps out the remainder of the window, so a
window always lasts one per-retry timeout. -/
inductive NetEvent where
  | timeout
  | recv (raw : List Nat) (srcIp : Nat) (srcPort : Nat)
deriving DecidableEq, Repr

/-- Outcome of one `txrx` call: a reply accepted by the handler (with the source
port, the number of transmissions made, and the unconsumed events), an exception,
or an exhausted script. -/
inductive TxrxResult where
  | ok (resp : RxPkt) (srcPort : Nat) (sends : Nat) (rest : List NetEvent)
  | failed (f : Failure) (sends : Nat)
  | pending (sends : Nat)
deriving DecidableEq, Repr

/-- `TFTPClient.txrx`: check the deadline, transmit, wait one window; a decode
failure or a datagram from a foreign IP is ignored; the handler either accepts
the packet, returns `None` (keep waiting), or raises.  `elapsed` is wall-clock
time since the call started and grows by the per-retry timeout each window. -/
def txrx_go (handler : RxPkt → Except Failure (Option RxPkt)) (ip deadline per_retry : Nat) :
    List NetEvent → Nat → Nat → TxrxResult
  | events, elapsed, sends =>
    if deadline < elapsed then .failed .timeoutError sends
    else
      match events with
      | [] => .pending (sends + 1)
      | e :: rest =>
        match e with
        | .timeout => txrx_go handler ip deadline per_retry rest (elapsed + per_retry) (sends + 1)
        | .recv raw srcIp srcPort =>
          match parse_pkt raw with
          | none => txrx_go handler ip deadline per_retry rest (elapsed + per_retry) (sends + 1)
          | some rx =>
            if srcIp = ip then
              match handler rx with
              | .error f => .failed f (sends + 1)
              | .ok (some resp) => .ok resp srcPort (sends + 1) rest
              | .ok none => txrx_go handler ip deadline per_retry rest (elapsed + per_retry) (sends + 1)
            else txrx_go handler ip deadline per_retry rest (elapsed + per_retry) (sends + 1)

/-- Outcome of the steady-state read loop. -/
inductive ReadOutcome where
  | success (buf : List Nat)
  | failed (f : Failure)
  | pending
deriving DecidableEq, Repr

/-- The steady-state loop of `TFTPClient.read`: ack the last block, wait for the
successor Data block, append its payload, advance the counter; a payload shorter
than the session blocksize ends the transfer. -/
def read_loop (ip session_timeout : Nat) :
    Nat → Session → List Nat → List NetEvent → ReadOutcome
  | 0, _, _, _ => .pending
  | fuel + 1, st, buf, events =>
    match txrx_go (handle_data_rx st.blocknum) ip session_timeout st.timeout events 0 0 with
    | .failed f _ => .failed f
    | .pending _ => .pending
    | .ok resp _ _ rest =>
      match resp.data with
      | none => .failed (.keyError "data")
      | some d =>
        let buf1 := buf ++ d
        let st1 := { st with blocknum := st.blocknum + 1 }
        if d.length < st1.blocksize then .success buf1
        else read_loop ip session_timeout fuel st1 buf1 rest

/-- The chunking of the `TFTPClient.write` loop, fuelled: take up to `bs` bytes off
the front of the buffer and send them; a chunk shorter than `bs` is the last. -/
def write_chunksF : Nat → Nat → List Nat → List (List Nat)
  | 0, _, _ => []
  | fuel + 1, bs, buf =>
    let chunk := buf.take bs
    if chunk.length < bs then [chunk]
    else chunk :: write_chunksF fuel bs (buf.drop bs)

/-- The payloads of the Data packets `TFTPClient.write` sends for `buf`
(`buf.length + 1` windows of fuel always suffice when `bs > 0`). -/
def write_chunks (bs : Nat) (buf : List Nat) : List (List Nat) :=
  write_chunksF (buf.length + 1) bs buf

/-- The Data packets `TFTPClient.write` sends: block numbers count up from 1. -/
def write_data_pkts (bs : Nat) (buf : List Nat) : List (List Nat) :=
  (write_chunks bs buf).enum.map (fun p => create_data_pkt (p.1 + 1) p.2)

/-! ## Theorems about the claims -/

/-- C1: the spec requires the write handshake to accept an Acknowledgement of
block 0 and to ignore any other Acknowledgement number, but the code reads the
key `'blocknum'` from a parsed ACK packet, which `parse_pkt` stores under
`'acknum'` (as `handle_data_tx` correctly reads it): every ACK reply to a
Write-Request, whatever its block number, raises `KeyError('blocknum')` and
aborts the transfer instead. -/
theorem tftp_C1_write_ack_keyerror :
    parse_pkt [0, 4, 0, 0] = some { op := opACK, acknum := some 0 } ∧
    handle_write_connect { op := opACK, acknum := some 0 }
      = .error (.keyError "blocknum") ∧
    parse_pkt [0, 4, 0, 7] = some { op := opACK, acknum := some 7 } ∧
    handle_write_connect { op := opACK, acknum := some 7 }
      = .error (.keyError "blocknum") ∧
    handle_data_tx 7 { op := opACK, acknum := some 7 }
      = .ok (some { op := opACK, acknum := some 7 }) :=
  ⟨rfl, rfl, rfl, rfl, rfl⟩

/-- C2 counterexample: error codes 5 (unknown transfer ID) and 6 (file exists)
are both known codes, yet both are raised as the same exception class
`TFTPClientError` (the generic server-error), so the nine known codes do not map
to pairwise distinct failure kinds. -/
theorem tftp_C2_counterexample :
    process_err { op := opERR, errcode := some eUNKNOWN_TID, msg := some [] }
      = .error (.serverError eUNKNOWN_TID []) ∧
    process_err { op := opERR, errcode := some eFILE_ALREADY_EXISTS, msg := some [] }
      = .error (.serverError eFILE_ALREADY_EXISTS []) ∧
    Failure.pyClass (.serverError eUNKNOWN_TID [])
      = Failure.pyClass (.serverError eFILE_ALREADY_EXISTS []) ∧
    eUNKNOWN_TID ≠ eFILE_ALREADY_EXISTS :=
  ⟨rfl, rfl, rfl, by decide⟩

/-- C2 as amended: only codes 0–4 (custom, file-not-found, access-violation,
disk-full, illegal-operation) raise pairwise distinct failure kinds; every other
code — including the known codes 5–8 — raises the generic server-error failure
carrying the raw code and message. -/
theorem tftp_C2_amended (m : List Nat) :
    process_err { op := opERR, errcode := some eCUSTOM, msg := some m }
      = .error (.custom m) ∧
    process_err { op := opERR, errcode := some eFILE_NOT_FOUND, msg := some m }
      = .error (.fileNotFound m) ∧
    process_err { op := opERR, errcode := some eACCESS_VIOLATION, msg := some m }
      = .error (.accessViolation m) ∧
    process_err { op := opERR, errcode := some eDISK_FULL, msg := some m }
      = .error (.diskFull m) ∧
    process_err { op := opERR, errcode := some eILLEGAL_OPERATION, msg := some m }
      = .error (.illegalOperation m) ∧
    (∀ c, eILLEGAL_OPERATION < c →
      process_err { op := opERR, errcode := some c, msg := some m }
        = .error (.serverError c m)) ∧
    (Failure.custom m).pyClass = "TFTPClientCustomError" ∧
    (Failure.fileNotFound m).pyClass = "TFTPClientFileNotFoundError" ∧
    (Failure.accessViolation m).pyClass = "TFTPClientAccessViolationError" ∧
    (Failure.diskFull m).pyClass = "TFTPClientDiskFullError" ∧
    (Failure.illegalOperation m).pyClass = "TFTPClientIllegalOperationError" ∧
    (∀ c msg, (Failure.serverError c msg).pyClass = "TFTPClientError") ∧
    ["TFTPClientCustomError", "TFTPClientFileNotFoundError",
      "TFTPClientAccessViolationError", "TFTPClientDiskFullError",
      "TFTPClientIllegalOperationError", "TFTPClientError"].Pairwise (· ≠ ·) := by
  refine ⟨rfl, rfl, rfl, rfl, rfl, ?_, rfl, rfl, rfl, rfl, rfl, fun c msg => rfl, by decide⟩
  intro c hc
  have h2 : c ≠ eACCESS_VIOLATION := by unfold eACCESS_VIOLATION eILLEGAL_OPERATION at *; omega
  have h0 : c ≠ eCUSTOM := by unfold eCUSTOM eILLEGAL_OPERATION at *; omega
  have h3 : c ≠ eDISK_FULL := by unfold eDISK_FULL eILLEGAL_OPERATION at *; omega
  have h1 : c ≠ eFILE_NOT_FOUND := by unfold eFILE_NOT_FOUND eILLEGAL_OPERATION at *; omega
  have h4 : c ≠ eILLEGAL_OPERATION := by unfold eILLEGAL_OPERATION at *; omega
  simp [process_err, getKey, h0, h1, h2, h3, h4]

/-- C2 witness: the known code 8 (no-options) falls into the generic branch. -/
theorem tftp_C2_amended_witness :
    process_err { op := opERR, errcode := some eNO_OPTIONS_ERROR, msg := some [] }
      = .error (.serverError eNO_OPTIONS_ERROR []) :=
  (tftp_C2_amended []).2.2.2.2.2.1 eNO_OPTIONS_ERROR (by decide)

/-- C3 counterexample: `parse_pkt` does not decode Request packets at all — the
encoded Read-Request with options blksize=1024, timeout=3 decodes to the bare
opcode-only record, with no filename, mode or options fields. -/
theorem tftp_C3_counterexample :
    parse_pkt (create_rq_pkt (ascii "file") opRRQ
        [(ascii "blksize", ascii "1024"), (ascii "timeout", ascii "3")])
      = some { op := opRRQ } := by
  decide

/-- C3 as amended: decoding an encoded Request with `parse_pkt` yields only the
opcode-only record (the client-side decoder defers unknown opcodes); the option
block of the encoded packet, decoded with `parse_options`, does round-trip to the
original option mapping unchanged. -/
theorem tftp_C3_amended (filename : List Nat) (henc : filename.all (· < 128)) :
    parse_pkt (create_rq_pkt filename opRRQ
        [(ascii "blksize", ascii "1024"), (ascii "timeout", ascii "3")])
      = some { op := opRRQ } ∧
    parse_options ((([(ascii "blksize", ascii "1024"), (ascii "timeout", ascii "3")]).map
        (fun p => cstr p.1 ++ cstr p.2)).flatten)
      = some [(ascii "blksize", ascii "1024"), (ascii "timeout", ascii "3")] := by
  exact ⟨rfl, by decide⟩

/-- C3 witness: the amended round-trip at the filename `"file"`. -/
theorem tftp_C3_amended_witness :
    parse_pkt (create_rq_pkt (ascii "file") opRRQ
        [(ascii "blksize", ascii "1024"), (ascii "timeout", ascii "3")])
      = some { op := opRRQ } :=
  (tftp_C3_amended (ascii "file") (by decide)).1

/-- C4 counterexample: with session deadline 10, the OACK timeout value `"99"`
parses as an integer outside [1, 10], yet `accept_options` succeeds and leaves
the session unchanged instead of failing with a negotiation failure — the
out-of-range branch for `timeout` has no `else` raise. -/
theorem tftp_C4_counterexample :
    accept_options 10 setupSession
        { op := opOACK, options := some [(ascii "timeout", ascii "99")] }
      = .ok setupSession := by
  rfl

/-- C4 as amended: a timeout value that does not parse as an integer fails the
transfer with the negotiation failure; a value parsing into [1, session deadline]
is stored as the per-retry timeout; a value parsing outside that range is
silently ignored and the session keeps its previous timeout, with no failure. -/
theorem tftp_C4_amended (session_timeout : Nat) (st : Session) (v : List Nat) :
    (pyInt v = none →
      accept_options session_timeout st
          { op := opOACK, options := some [(ascii "timeout", v)] }
        = .error .unacceptableOptions) ∧
    (∀ t : Int, pyInt v = some t → 1 ≤ t → t ≤ (session_timeout : Int) →
      accept_options session_timeout st
          { op := opOACK, options := some [(ascii "timeout", v)] }
        = .ok { st with timeout := t.toNat }) ∧
    (∀ t : Int, pyInt v = some t → ¬(1 ≤ t ∧ t ≤ (session_timeout : Int)) →
      accept_options session_timeout st
          { op := opOACK, options := some [(ascii "timeout", v)] }
        = .ok st) := by
  have hk : ascii "timeout" ≠ ascii "blksize" := by decide
  refine ⟨?_, ?_, ?_⟩
  · intro hv
    simp [accept_options, dictGet, hk, hv]
  · intro t hv h1 h2
    simp [accept_options, dictGet, hk, hv, h1, h2]
  · intro t hv hrange
    simp [accept_options, dictGet, hk, hv, hrange]

/-- C4 witness: timeout value `"3"` with session deadline 10 is accepted. -/
theorem tftp_C4_amended_witness :
    accept_options 10 setupSession
        { op := opOACK, options := some [(ascii "timeout", ascii "3")] }
      = .ok { setupSession with timeout := 3 } :=
  (tftp_C4_amended 10 setupSession (ascii "3")).2.1 3 (by decide) (by decide) (by decide)

/-- Unfolding `txrx_go` on an empty script. -/
lemma txrx_go_nil_eq (h : RxPkt → Except Failure (Option RxPkt)) (ip deadline per_retry : Nat)
    (elapsed sends : Nat) :
    txrx_go h ip deadline per_retry [] elapsed sends
      = if deadline < elapsed then .failed .timeoutError sends else .pending (sends + 1) := rfl

/-- Unfolding `txrx_go` on a silent window. -/
lemma txrx_go_timeout_eq (h : RxPkt → Except Failure (Option RxPkt)) (ip deadline per_retry : Nat)
    (rest : List NetEvent) (elapsed sends : Nat) :
    txrx_go h ip deadline per_retry (.timeout :: rest) elapsed sends
      = if deadline < elapsed then .failed .timeoutError sends
        else txrx_go h ip deadline per_retry rest (elapsed + per_retry) (sends + 1) := rfl

/-- Unfolding `txrx_go` on a window in which a datagram arrived. -/
lemma txrx_go_recv_eq (h : RxPkt → Except Failure (Option RxPkt)) (ip deadline per_retry : Nat)
    (raw : List Nat) (srcIp srcPort : Nat) (rest : List NetEvent) (elapsed sends : Nat) :
    txrx_go h ip deadline per_retry (.recv raw srcIp srcPort :: rest) elapsed sends
      = if deadline < elapsed then .failed .timeoutError sends
        else
          match parse_pkt raw with
          | none => txrx_go h ip deadline per_retry rest (elapsed + per_retry) (sends + 1)
          | some rx =>
            if srcIp = ip then
              match h rx with
              | .error f => .failed f (sends + 1)
              | .ok (some resp) => .ok resp srcPort (sends + 1) rest
              | .ok none => txrx_go h ip deadline per_retry rest (elapsed + per_retry) (sends + 1)
            else txrx_go h ip deadline per_retry rest (elapsed + per_retry) (sends + 1) := rfl

/-- One window of `txrx` in which a datagram failed to decode behaves exactly like
a window in which nothing arrived: same transmissions, same continuation. -/
lemma txrx_go_parse_fail_eq_silence
    (h : RxPkt → Except Failure (Option RxPkt)) (ip deadline per_retry : Nat)
    (raw : List Nat) (srcIp srcPort : Nat) (rest : List NetEvent) (elapsed sends : Nat)
    (hparse : parse_pkt raw = none) :
    txrx_go h ip deadline per_retry (.recv raw srcIp srcPort :: rest) elapsed sends
      = txrx_go h ip deadline per_retry (.timeout :: rest) elapsed sends := by
  rw [txrx_go_recv_eq, txrx_go_timeout_eq, hparse]

/-- One window of `txrx` in which the handler answered "not yet" on the decoded
packet behaves exactly like a window in which nothing arrived: same
transmissions, same continuation, no failure. -/
lemma txrx_go_stale_eq_silence
    (h : RxPkt → Except Failure (Option RxPkt)) (ip deadline per_retry : Nat)
    (raw : List Nat) (srcPort : Nat) (rx : RxPkt) (rest : List NetEvent) (elapsed sends : Nat)
    (hparse : parse_pkt raw = some rx) (hstale : h rx = .ok none) :
    txrx_go h ip deadline per_retry (.recv raw ip srcPort :: rest) elapsed sends
      = txrx_go h ip deadline per_retry (.timeout :: rest) elapsed sends := by
  rw [txrx_go_recv_eq, txrx_go_timeout_eq]
  simp [hparse, hstale]

/-- C5 counterexample: an option block of three NUL-terminated tokens (an odd
count) decodes successfully — the unpaired token is paired with the empty string
produced by the trailing NUL — instead of failing with a parse error. -/
theorem tftp_C5_counterexample :
    parse_options (cstr (ascii "blksize") ++ cstr (ascii "1024") ++ cstr (ascii "timeout"))
      = some [(ascii "blksize", ascii "1024"), (ascii "timeout", [])] := by
  decide

/-- C5 as amended: an option block with an invalid text encoding (any byte ≥ 128)
fails to decode, an OACK packet carrying it is dropped by `parse_pkt`, and the
receive loop treats the undecodable datagram exactly like silence (ignore and
keep waiting, never a fatal failure); an odd token count, however, never fails:
any all-ASCII option block decodes successfully. -/
theorem tftp_C5_amended :
    (∀ src : List Nat, ¬ src.all (· < 128) → parse_options src = none) ∧
    (∀ src : List Nat, src.all (· < 128) → ∃ o, parse_options src = some o) ∧
    (∀ src : List Nat, ¬ src.all (· < 128) → parse_pkt ([0, 6] ++ src) = none) ∧
    (∀ (h : RxPkt → Except Failure (Option RxPkt)) (ip deadline per_retry : Nat)
        (raw : List Nat) (srcIp srcPort : Nat) (rest : List NetEvent) (elapsed sends : Nat),
      parse_pkt raw = none →
      txrx_go h ip deadline per_retry (.recv raw srcIp srcPort :: rest) elapsed sends
        = txrx_go h ip deadline per_retry (.timeout :: rest) elapsed sends) := by
  refine ⟨?_, ?_, ?_, txrx_go_parse_fail_eq_silence⟩
  · intro src hsrc
    simp [parse_options, hsrc]
  · intro src hsrc
    simp [parse_options, hsrc]
  · intro src hsrc
    have h0 : parse_options src = none := by simp [parse_options, hsrc]
    simp [parse_pkt, u16at, opDATA, opACK, opERR, opOACK, h0]

/-- C5 witness: the single byte 200 is not ASCII, so the block fails to decode
and the OACK datagram carrying it is dropped. -/
theorem tftp_C5_amended_witness :
    parse_options [200] = none ∧ parse_pkt ([0, 6] ++ [200]) = none :=
  ⟨tftp_C5_amended.1 [200] (by decide), tftp_C5_amended.2.2.1 [200] (by decide)⟩

/-- C6: a Data packet whose block number is not the expected successor (during a
read) or an ACK whose number is not the current block (during a write) makes the
step predicate answer "not yet" with no state change, and the retry engine then
behaves exactly as if nothing had arrived in that window — no extra transmission,
no failure, keep waiting for the next datagram. -/
theorem tftp_C6_stale_ignored :
    (∀ (bn : Nat) (rx : RxPkt) (b : Nat), rx.op = opDATA → rx.blocknum = some b →
      b ≠ bn + 1 → handle_data_rx bn rx = .ok none) ∧
    (∀ (bn : Nat) (rx : RxPkt) (a : Nat), rx.op = opACK → rx.acknum = some a →
      a ≠ bn → handle_data_tx bn rx = .ok none) ∧
    (∀ (h : RxPkt → Except Failure (Option RxPkt)) (ip deadline per_retry : Nat)
        (raw : List Nat) (srcPort : Nat) (rx : RxPkt) (rest : List NetEvent)
        (elapsed sends : Nat),
      parse_pkt raw = some rx → h rx = .ok none →
      txrx_go h ip deadline per_retry (.recv raw ip srcPort :: rest) elapsed sends
        = txrx_go h ip deadline per_retry (.timeout :: rest) elapsed sends) := by
  refine ⟨?_, ?_, txrx_go_stale_eq_silence⟩
  · intro bn rx b hop hb hne
    simp [handle_data_rx, process_err, getKey, hop, hb, hne, opDATA, opERR]
  · intro bn rx a hop ha hne
    simp [handle_data_tx, process_err, getKey, hop, ha, hne, opACK, opERR]

/-- C6 witness: block 9 arriving when block 4 is expected is answered "not yet". -/
theorem tftp_C6_witness :
    handle_data_rx 3 { op := opDATA, blocknum := some 9, data := some [] } = .ok none :=
  tftp_C6_stale_ignored.1 3 { op := opDATA, blocknum := some 9, data := some [] } 9
    rfl rfl (by decide)

/-- Once elapsed time strictly exceeds the deadline, `txrx` raises the timeout
error before transmitting again. -/
lemma txrx_go_deadline
    (h : RxPkt → Except Failure (Option RxPkt)) (ip deadline per_retry : Nat)
    (events : List NetEvent) (elapsed sends : Nat) (hlate : deadline < elapsed) :
    txrx_go h ip deadline per_retry events elapsed sends = .failed .timeoutError sends := by
  match events with
  | [] => rw [txrx_go_nil_eq, if_pos hlate]
  | .timeout :: rest => rw [txrx_go_timeout_eq, if_pos hlate]
  | .recv raw srcIp srcPort :: rest => rw [txrx_go_recv_eq, if_pos hlate]

/-- With a 1-second per-retry window and only silent windows, `txrx` transmits
once per window until elapsed time strictly exceeds the deadline, then fails. -/
lemma txrx_go_all_timeouts
    (h : RxPkt → Except Failure (Option RxPkt)) (ip deadline : Nat) :
    ∀ (m elapsed sends : Nat), deadline - elapsed < m → elapsed ≤ deadline →
      txrx_go h ip deadline 1 (List.replicate m .timeout) elapsed sends
        = .failed .timeoutError (sends + (deadline - elapsed) + 1) := by
  intro m
  induction m with
  | zero => intro el s hm hel; exact absurd hm (by omega)
  | succ m ih =>
    intro el s hm hel
    rw [List.replicate_succ, txrx_go_timeout_eq, if_neg (by omega)]
    show txrx_go h ip deadline 1 (List.replicate m .timeout) (el + 1) (s + 1)
      = .failed .timeoutError (s + (deadline - el) + 1)
    by_cases hcase : el = deadline
    · rw [txrx_go_deadline h ip deadline 1 _ _ _ (by omega)]
      congr 1
      omega
    · rw [ih (el + 1) (s + 1) (by omega) (by omega)]
      congr 1
      omega

/-- C7 counterexample: with per-retry timeout 1 s and connect deadline 5 s and no
reply ever arriving, the retry engine makes 6 transmissions before failing with
the timeout error, not 5: the deadline check `now - start > timeout` is strict,
so at elapsed time exactly 5 s a sixth transmission still happens. -/
theorem tftp_C7_counterexample :
    txrx_go handle_read_connect 0 5 1 (List.replicate 10 .timeout) 0 0
      = .failed .timeoutError 6 := by
  rfl

/-- C7 as amended: the engine never transmits once elapsed time strictly exceeds
the deadline — the check precedes every transmission and then the operation fails
with the timeout error — and in the 1 s / 5 s no-reply scenario the call fails
after 6 transmissions and before a 7th (the strict comparison admits one
transmission at elapsed time equal to the deadline). -/
theorem tftp_C7_amended :
    (∀ (h : RxPkt → Except Failure (Option RxPkt)) (ip deadline per_retry : Nat)
        (events : List NetEvent) (elapsed sends : Nat), deadline < elapsed →
      txrx_go h ip deadline per_retry events elapsed sends
        = .failed .timeoutError sends) ∧
    (∀ n : Nat, txrx_go handle_read_connect 0 5 1 (List.replicate (n + 6) .timeout) 0 0
      = .failed .timeoutError 6) := by
  refine ⟨fun h ip dl pr ev el s hlate => txrx_go_deadline h ip dl pr ev el s hlate, fun n => ?_⟩
  have h6 := txrx_go_all_timeouts handle_read_connect 0 5 (n + 6) 0 0 (by omega) (by omega)
  simpa using h6

/-- C7 witness: at elapsed 6 s past a 5 s deadline the engine fails at once,
keeping the transmission count it had. -/
theorem tftp_C7_amended_witness :
    txrx_go handle_read_connect 0 5 1 [] 6 3 = .failed .timeoutError 3 :=
  tftp_C7_amended.1 handle_read_connect 0 5 1 [] 6 3 (by decide)


/-- Unfolding one step of the fuelled write chunking. -/
lemma write_chunksF_succ_eq (fuel bs : Nat) (buf : List Nat) :
    write_chunksF (fuel + 1) bs buf
      = if (buf.take bs).length < bs then [buf.take bs]
        else buf.take bs :: write_chunksF fuel bs (buf.drop bs) := rfl

/-- The fuelled write chunking always ends in a chunk strictly shorter than the
block size, and that last chunk is empty when the block size divides the buffer
length. -/
lemma write_chunksF_spec (bs : Nat) (hbs : 0 < bs) :
    ∀ (fuel : Nat) (buf : List Nat), buf.length < fuel →
      ∃ (c : List Nat) (cs : List (List Nat)),
        write_chunksF fuel bs buf = cs ++ [c] ∧ c.length < bs ∧
        (bs ∣ buf.length → c = []) := by
  intro fuel
  induction fuel with
  | zero => intro buf hlen; exact absurd hlen (by omega)
  | succ fuel ih =>
    intro buf hlen
    by_cases hc : (buf.take bs).length < bs
    · refine ⟨buf.take bs, [], ?_, hc, ?_⟩
      · rw [write_chunksF_succ_eq, if_pos hc, List.nil_append]
      · intro hdvd
        have hlt : buf.length < bs := by
          rw [List.length_take] at hc
          omega
        have h0 : buf.length = 0 := Nat.eq_zero_of_dvd_of_lt hdvd hlt
        rw [List.length_eq_zero.mp h0]
        simp
    · have hbs_le : bs ≤ buf.length := by
        rw [List.length_take] at hc
        omega
      have hrest : (buf.drop bs).length < fuel := by
        rw [List.length_drop]
        omega
      obtain ⟨c, cs, heq, hclt, hcdvd⟩ := ih (buf.drop bs) hrest
      refine ⟨c, buf.take bs :: cs, ?_, hclt, ?_⟩
      · rw [write_chunksF_succ_eq, if_neg hc, heq, List.cons_append]
      · intro hdvd
        refine hcdvd ?_
        rw [List.length_drop]
        exact Nat.dvd_sub' hdvd dvd_rfl

set_option maxRecDepth 10000 in
/-- C8: for every write, the last Data payload is strictly shorter than the
negotiated block size — when the block size divides the buffer length exactly,
the terminal payload is empty — and a 1200-byte upload at block size 512
produces exactly 3 Data packets with payload sizes 512, 512, 176. -/
theorem tftp_C8_final_chunk (bs : Nat) (buf : List Nat) (hbs : 0 < bs) :
    (∃ c, (write_chunks bs buf).getLast? = some c ∧ c.length < bs) ∧
    (bs ∣ buf.length → (write_chunks bs buf).getLast? = some []) ∧
    (write_chunks 512 (List.replicate 1200 0)).map List.length = [512, 512, 176] ∧
    (write_data_pkts 512 (List.replicate 1200 0)).length = 3 := by
  obtain ⟨c, cs, heq, hclt, hcdvd⟩ :=
    write_chunksF_spec bs hbs (buf.length + 1) buf (by omega)
  refine ⟨⟨c, ?_, hclt⟩, ?_, by decide, by decide⟩
  · rw [write_chunks, heq, List.getLast?_concat]
  · intro hdvd
    rw [write_chunks, heq, List.getLast?_concat, hcdvd hdvd]

/-- C8 witness: the 1200-byte upload at block size 512 has a final payload
shorter than 512. -/
theorem tftp_C8_final_chunk_witness :
    ∃ c, (write_chunks 512 (List.replicate 1200 0)).getLast? = some c ∧ c.length < 512 :=
  (tftp_C8_final_chunk 512 (List.replicate 1200 0) (by decide)).1

/-- Every successfully parsed packet has one of five shapes, matching the five
dict layouts `parse_pkt` can return. -/
lemma parse_pkt_shape (raw : List Nat) (rx : RxPkt) (h : parse_pkt raw = some rx) :
    (∃ b, u16at raw 2 = some b ∧
      rx = { op := opDATA, blocknum := some b, data := some (raw.drop 4) }) ∨
    (∃ a, u16at raw 2 = some a ∧ rx = { op := opACK, acknum := some a }) ∨
    (∃ c, u16at raw 2 = some c ∧
      rx = { op := opERR, errcode := some c, msg := some (rstripNul (raw.drop 4)) }) ∨
    (∃ o, rx = { op := opOACK, options := some o }) ∨
    (rx = { op := rx.op } ∧ rx.op ≠ opDATA ∧ rx.op ≠ opACK ∧ rx.op ≠ opERR ∧
      rx.op ≠ opOACK) := by
  unfold parse_pkt at h
  split at h
  next => exact absurd h (by simp)
  next op hu =>
    by_cases hDATA : op = opDATA
    · rw [if_pos hDATA] at h
      split at h
      next => exact absurd h (by simp)
      next b hu2 =>
        injection h with h
        subst h
        exact .inl ⟨b, hu2, rfl⟩
    · rw [if_neg hDATA] at h
      by_cases hACK : op = opACK
      · rw [if_pos hACK] at h
        split at h
        next => exact absurd h (by simp)
        next a hu2 =>
          injection h with h
          subst h
          exact .inr (.inl ⟨a, hu2, rfl⟩)
      · rw [if_neg hACK] at h
        by_cases hERR : op = opERR
        · rw [if_pos hERR] at h
          split at h
          next => exact absurd h (by simp)
          next c hu2 =>
            by_cases henc2 : (raw.drop 4).all (· < 128)
            · rw [if_pos henc2] at h
              injection h with h
              subst h
              exact .inr (.inr (.inl ⟨c, hu2, rfl⟩))
            · rw [if_neg henc2] at h
              exact absurd h (by simp)
        · rw [if_neg hERR] at h
          by_cases hOACK : op = opOACK
          · rw [if_pos hOACK] at h
            split at h
            next => exact absurd h (by simp)
            next o hopt =>
              injection h with h
              subst h
              exact .inr (.inr (.inr (.inl ⟨o, rfl⟩)))
          · rw [if_neg hOACK] at h
            injection h with h
            subst h
            exact .inr (.inr (.inr (.inr ⟨rfl, hDATA, hACK, hERR, hOACK⟩)))

/-- `process_err` on any parsed Error packet raises some failure. -/
lemma process_err_raises (c : Nat) (m : List Nat) :
    ∃ f, process_err { op := opERR, errcode := some c, msg := some m } = .error f := by
  unfold process_err
  rw [if_pos rfl]
  show ∃ f, (if c = eACCESS_VIOLATION then Except.error (Failure.accessViolation m)
    else if c = eCUSTOM then Except.error (Failure.custom m)
    else if c = eDISK_FULL then Except.error (Failure.diskFull m)
    else if c = eFILE_NOT_FOUND then Except.error (Failure.fileNotFound m)
    else if c = eILLEGAL_OPERATION then Except.error (Failure.illegalOperation m)
    else Except.error (Failure.serverError c m)) = Except.error f
  split_ifs <;> exact ⟨_, rfl⟩

/-- C9: whenever the first accepted reply to a Read-Request is not an
Option-Acknowledgement, the data phase runs with block size 512 and per-retry
timeout 1 second, whatever block size and timeout the client put into its
Read-Request packet. -/
theorem tftp_C9_defaults (def_blocksize def_timeout session_timeout : Nat)
    (filename raw : List Nat) (resp : RxPkt)
    (hparse : parse_pkt raw = some resp)
    (hfirst : handle_read_connect resp = .ok (some resp))
    (hnoack : resp.op ≠ opOACK) :
    (read_connect_phase def_blocksize def_timeout session_timeout filename resp).2
      = .ok ({ blocknum := 1, blocksize := 512, timeout := 1 }, raw.drop 4) := by
  rcases parse_pkt_shape raw resp hparse with
    ⟨b, hu, hrx⟩ | ⟨a, hu, hrx⟩ | ⟨c, hu, hrx⟩ | ⟨o, hrx⟩ | ⟨hrx, h1, h2, h3, h4⟩
  · subst hrx
    simp [read_connect_phase, read_after_connect, getKey, setupSession, opDATA, opOACK]
  · subst hrx
    simp [handle_read_connect, process_err, getKey, opACK, opERR, opOACK, opDATA] at hfirst
  · subst hrx
    obtain ⟨f, hf⟩ := process_err_raises c (rstripNul (raw.drop 4))
    rw [handle_read_connect, hf] at hfirst
    exact absurd hfirst (by simp)
  · subst hrx
    exact absurd rfl hnoack
  · rw [handle_read_connect] at hfirst
    have hok : process_err resp = .ok () := by
      unfold process_err
      rw [if_neg h3]
    rw [hok, if_neg h4, if_neg h1] at hfirst
    exact absurd hfirst (by simp)

/-- C9 witness: a first reply of Data block 1 with one payload byte, after a
Read-Request asking for block size 1468 and timeout 1, yields session defaults
512 and 1. -/
theorem tftp_C9_defaults_witness :
    (read_connect_phase 1468 1 10 (ascii "f")
        { op := opDATA, blocknum := some 1, data := some [65] }).2
      = .ok ({ blocknum := 1, blocksize := 512, timeout := 1 }, [65]) :=
  tftp_C9_defaults 1468 1 10 (ascii "f") [0, 3, 0, 1, 65]
    { op := opDATA, blocknum := some 1, data := some [65] } rfl rfl (by decide)

/-- A 16-bit field read from genuine bytes is below 65536. -/
lemma u16at_lt (raw : List Nat) (off v : Nat) (hbytes : raw.all (· < 256))
    (h : u16at raw off = some v) : v < 65536 := by
  unfold u16at at h
  split at h
  next a b ha hb =>
    injection h with h
    subst h
    have hmem_a := List.get?_mem ha
    have hmem_b := List.get?_mem hb
    have hlt_a : a < 256 := by
      have := List.all_eq_true.mp hbytes a hmem_a
      simpa using this
    have hlt_b : b < 256 := by
      have := List.all_eq_true.mp hbytes b hmem_b
      simpa using this
    omega
  next => exact absurd h (by simp)

/-- Once the session block counter has reached 65535 the read-phase predicate can
never match: every parsed Data packet carries a 16-bit block number, below the
expected successor 65536. -/
lemma handle_data_rx_no_match (bn : Nat) (hbn : 65535 ≤ bn) (raw : List Nat) (rx : RxPkt)
    (hbytes : raw.all (· < 256)) (hparse : parse_pkt raw = some rx) (resp : RxPkt) :
    handle_data_rx bn rx ≠ .ok (some resp) := by
  rcases parse_pkt_shape raw rx hparse with
    ⟨b, hu, hrx⟩ | ⟨a, hu, hrx⟩ | ⟨c, hu, hrx⟩ | ⟨o, hrx⟩ | ⟨hrx, h1, h2, h3, h4⟩
  · have hblt := u16at_lt raw 2 b hbytes hu
    have hne : b ≠ bn + 1 := by omega
    subst hrx
    simp [handle_data_rx, process_err, getKey, hne, opDATA, opERR]
  · subst hrx
    simp [handle_data_rx, process_err, getKey, opACK, opDATA, opERR]
  · subst hrx
    obtain ⟨f, hf⟩ := process_err_raises c (rstripNul (raw.drop 4))
    rw [handle_data_rx, hf]
    simp
  · subst hrx
    simp [handle_data_rx, process_err, getKey, opOACK, opDATA, opERR]
  · rw [handle_data_rx]
    have hok : process_err rx = .ok () := by
      unfold process_err
      rw [if_neg h3]
    rw [hok, if_neg h1]
    simp

/-- A successful `txrx` call owes its result to some datagram of the script that
decoded to a packet the handler accepted. -/
lemma txrx_go_ok_src (h : RxPkt → Except Failure (Option RxPkt)) (ip deadline per_retry : Nat) :
    ∀ (events : List NetEvent) (elapsed sends : Nat) (resp : RxPkt)
      (srcPort sends2 : Nat) (rest : List NetEvent),
      txrx_go h ip deadline per_retry events elapsed sends = .ok resp srcPort sends2 rest →
      ∃ (raw : List Nat) (srcIp : Nat) (rx : RxPkt),
        NetEvent.recv raw srcIp srcPort ∈ events ∧ parse_pkt raw = some rx ∧
        h rx = .ok (some resp) := by
  intro events
  induction events with
  | nil =>
    intro el s resp sp s2 rest hh
    rw [txrx_go_nil_eq] at hh
    by_cases hlate : deadline < el
    · rw [if_pos hlate] at hh
      exact TxrxResult.noConfusion hh
    · rw [if_neg hlate] at hh
      exact TxrxResult.noConfusion hh
  | cons e evs ih =>
    intro el s resp sp s2 rest hh
    cases e with
    | timeout =>
      rw [txrx_go_timeout_eq] at hh
      by_cases hlate : deadline < el
      · rw [if_pos hlate] at hh
        exact TxrxResult.noConfusion hh
      · rw [if_neg hlate] at hh
        obtain ⟨raw, sip, rx, hmem, hp, hr⟩ := ih _ _ resp sp s2 rest hh
        exact ⟨raw, sip, rx, List.mem_cons_of_mem _ hmem, hp, hr⟩
    | recv raw0 sip0 sp0 =>
      rw [txrx_go_recv_eq] at hh
      by_cases hlate : deadline < el
      · rw [if_pos hlate] at hh
        exact TxrxResult.noConfusion hh
      · rw [if_neg hlate] at hh
        split at hh
        · obtain ⟨raw, sip, rx, hmem, hp, hr⟩ := ih _ _ resp sp s2 rest hh
          exact ⟨raw, sip, rx, List.mem_cons_of_mem _ hmem, hp, hr⟩
        next rx0 hp0 =>
          by_cases hip : sip0 = ip
          · rw [if_pos hip] at hh
            split at hh
            next f hr0 =>
              exact TxrxResult.noConfusion hh
            next resp0 hr0 =>
              injection hh with h1 h2 h3 h4
              subst h1
              subst h2
              exact ⟨raw0, sip0, rx0, by simp, hp0, hr0⟩
            next hr0 =>
              obtain ⟨raw, sip, rx, hmem, hp, hr⟩ := ih _ _ resp sp s2 rest hh
              exact ⟨raw, sip, rx, List.mem_cons_of_mem _ hmem, hp, hr⟩
          · rw [if_neg hip] at hh
            obtain ⟨raw, sip, rx, hmem, hp, hr⟩ := ih _ _ resp sp s2 rest hh
            exact ⟨raw, sip, rx, List.mem_cons_of_mem _ hmem, hp, hr⟩

/-- Unfolding `read_loop` with no fuel. -/
lemma read_loop_zero_eq (ip session_timeout : Nat) (st : Session) (buf : List Nat)
    (events : List NetEvent) :
    read_loop ip session_timeout 0 st buf events = .pending := rfl

/-- Unfolding one iteration of `read_loop`. -/
lemma read_loop_succ_eq (ip session_timeout fuel : Nat) (st : Session) (buf : List Nat)
    (events : List NetEvent) :
    read_loop ip session_timeout (fuel + 1) st buf events
      = match txrx_go (handle_data_rx st.blocknum) ip session_timeout st.timeout events 0 0 with
        | .failed f _ => .failed f
        | .pending _ => .pending
        | .ok resp _ _ rest =>
          match resp.data with
          | none => .failed (.keyError "data")
          | some d =>
            let buf1 := buf ++ d
            let st1 := { st with blocknum := st.blocknum + 1 }
            if d.length < st1.blocksize then .success buf1
            else read_loop ip session_timeout fuel st1 buf1 rest := rfl

/-- C10: a parsed Data packet always carries a block number below 65536, the
session's expected counter is an unbounded natural that never wraps, so with
the counter at 65535 or more the match predicate is unsatisfiable on any parsed
packet, and the read loop (over byte-valid datagrams) can then end only in a
failure — timeout or server error — never in success. -/
theorem tftp_C10_no_wraparound :
    (∀ (raw : List Nat) (rx : RxPkt), raw.all (· < 256) → parse_pkt raw = some rx →
      rx.op = opDATA → ∃ b, rx.blocknum = some b ∧ b < 65536) ∧
    (∀ (bn : Nat) (raw : List Nat) (rx resp : RxPkt), 65535 ≤ bn →
      raw.all (· < 256) → parse_pkt raw = some rx →
      handle_data_rx bn rx ≠ .ok (some resp)) ∧
    (∀ (ip session_timeout fuel : Nat) (st : Session) (buf : List Nat)
        (events : List NetEvent), 65535 ≤ st.blocknum →
      (∀ raw srcIp srcPort, NetEvent.recv raw srcIp srcPort ∈ events →
        raw.all (· < 256)) →
      ∀ b, read_loop ip session_timeout fuel st buf events ≠ .success b) := by
  refine ⟨?_, ?_, ?_⟩
  · intro raw rx hbytes hparse hop
    rcases parse_pkt_shape raw rx hparse with
      ⟨b, hu, hrx⟩ | ⟨a, hu, hrx⟩ | ⟨c, hu, hrx⟩ | ⟨o, hrx⟩ | ⟨hrx, h1, h2, h3, h4⟩
    · exact ⟨b, by rw [hrx], u16at_lt raw 2 b hbytes hu⟩
    · subst hrx; simp [opACK, opDATA] at hop
    · subst hrx; simp [opERR, opDATA] at hop
    · subst hrx; simp [opOACK, opDATA] at hop
    · exact absurd hop h1
  · intro bn raw rx resp hbn hbytes hparse
    exact handle_data_rx_no_match bn hbn raw rx hbytes hparse resp
  · intro ip session_timeout fuel st buf events hbn hbytes b
    cases fuel with
    | zero => rw [read_loop_zero_eq]; simp
    | succ fuel =>
      rw [read_loop_succ_eq]
      cases htx : txrx_go (handle_data_rx st.blocknum) ip session_timeout st.timeout
          events 0 0 with
      | failed f s => simp
      | pending s => simp
      | ok resp sp s rest =>
        obtain ⟨raw, sip, rx, hmem, hp, hr⟩ :=
          txrx_go_ok_src (handle_data_rx st.blocknum) ip session_timeout st.timeout
            events 0 0 resp sp s rest htx
        exact absurd hr
          (handle_data_rx_no_match st.blocknum hbn raw rx (hbytes raw sip sp hmem) hp resp)

/-- C10 witness: the largest representable block number in a parsed Data packet
is 65535, below the wrap point. -/
theorem tftp_C10_no_wraparound_witness :
    ∃ b, (RxPkt.mk opDATA (some 65535) none (some []) none none none).blocknum = some b
      ∧ b < 65536 :=
  tftp_C10_no_wraparound.1 [0, 3, 255, 255]
    (RxPkt.mk opDATA (some 65535) none (some []) none none none) (by decide) rfl rfl

end Tftp
